import Mathlib

/-!
Shallow embedding of the LiveKit video-calling backend
(`database.py`, `schemas.py`, `livekit_service.py`, `main.py`).

Conventions of the embedding:
* SQLAlchemy tables become lists of rows; `query(...).filter(...).first()`
  becomes `List.find?`, `.all()` with a mutating loop becomes `List.map`,
  and a mutation through the object returned by `.first()` updates the
  first matching row only.
* An endpoint returns `Except HTTPError α`: `HTTPException` becomes the
  `.error` case, and the database state is threaded explicitly, so an
  error response leaves the caller-supplied state untouched.
* Network calls performed by the media-server gateway are outside the
  program; each gateway method takes the outcome of the awaited remote
  call as an explicit `Except String _` argument, and the `try/except`
  wrapper in `livekit_service.py` is the `match` absorbing the error case.
* Timestamp columns (`created_at`, `joined_at`, `left_at`) are not
  modelled: no claim under verification mentions them.
* JWT encoding is performed by the external `livekit.api` library;
  the token is modelled as the claims set the library signs, which is
  exactly what a reference verifier holding the shared secret recovers.
-/

/-- Row of the `users` table (database.py, class User). -/
structure User where
  id : Nat
  username : String
  email : String
  hashed_password : String
  is_active : Bool
deriving Repr, DecidableEq

/-- Row of the `rooms` table (database.py, class Room). -/
structure Room where
  id : Nat
  name : String
  display_name : String
  description : Option String
  creator_id : Nat
  is_active : Bool
  max_participants : Nat
deriving Repr, DecidableEq

/-- Row of the `room_memberships` table (database.py, class RoomMembership). -/
structure RoomMembership where
  id : Nat
  user_id : Nat
  room_id : Nat
  is_active : Bool
deriving Repr, DecidableEq

/-- The three tables seen through one ORM session. -/
structure DB where
  users : List User
  rooms : List Room
  memberships : List RoomMembership
deriving Repr, DecidableEq

/-- An HTTPException raised by an endpoint. -/
structure HTTPError where
  status_code : Nat
  detail : String
deriving Repr, DecidableEq

/-- Request body of POST /auth/register (schemas.py, UserCreate). -/
structure UserCreate where
  username : String
  email : String
  password : String
deriving Repr, DecidableEq

/-- Request body of POST /rooms (schemas.py, RoomCreate); pydantic fills
`max_participants` with 50 when the field is absent. -/
structure RoomCreate where
  name : String
  display_name : String
  description : Option String
  max_participants : Nat := 50
deriving Repr, DecidableEq

/-- The `livekit.api.VideoGrants` capability record carried by a token;
every capability bit defaults to false, as in the external library. -/
structure VideoGrants where
  room_join : Bool := false
  room : Option String := none
  can_publish : Bool := false
  can_subscribe : Bool := false
  can_publish_data : Bool := false
  room_create : Bool := false
  room_list : Bool := false
  room_admin : Bool := false
deriving Repr, DecidableEq

/-- The claims set accumulated on a `livekit.api.AccessToken` by
`with_identity` / `with_name` / `with_metadata` / `with_grants`.
`to_jwt` signs exactly these claims with the shared API secret, so a
reference verifier holding the secret decodes the token back to this
record; the signing transport itself lives in the external library. -/
structure TokenClaims where
  identity : Option String := none
  name : Option String := none
  metadata : Option String := none
  grants : VideoGrants := {}
deriving Repr, DecidableEq

/-- Python truthiness of an optional string: `None` and the empty string
are falsy, any other string is truthy. -/
def pyTruthy : Option String → Bool
  | none => false
  | some s => !(s == "")

/-- The configured gateway/signer state (livekit_service.py, class
LiveKitService) after a successful `__init__`. -/
structure LiveKitService where
  api_key : String
  api_secret : String
  livekit_url : String
deriving Repr, DecidableEq

namespace LiveKitService

/-- `LiveKitService.__init__`: reads the three environment values and
raises ValueError when `not all([...])`, i.e. when any of the three is
`None` or empty. An `Option String` argument of `none` is an unset
environment variable. -/
def init (api_key api_secret livekit_url : Option String) :
    Except String LiveKitService :=
  if pyTruthy api_key && pyTruthy api_secret && pyTruthy livekit_url then
    .ok { api_key := api_key.getD ("")
          api_secret := api_secret.getD ("")
          livekit_url := livekit_url.getD ("") }
  else
    .error ("LiveKit configuration is incomplete. Please check your environment variables.")

/-- `LiveKitService.create_access_token` (livekit_service.py lines 17 to 54):
builds the claims of a room-join token. `self` contributes only the
signing key pair, which signs the claims but is not part of them. -/
def create_access_token (_svc : LiveKitService) (room_name : String)
    (participant_identity : String) (participant_name : Option String)
    (metadata : Option String) : TokenClaims :=
  let token : TokenClaims := { identity := some participant_identity }
  let token := if pyTruthy participant_name then
    { token with name := participant_name } else token
  let token := if pyTruthy metadata then
    { token with metadata := metadata } else token
  { token with grants := { room_join := true
                           room := some room_name
                           can_publish := true
                           can_subscribe := true
                           can_publish_data := true } }

/-- `LiveKitService.create_room_admin_token` (livekit_service.py lines 56
to 76): the administrative grant, for contrast with the join grant. -/
def create_room_admin_token (_svc : LiveKitService)
    (participant_identity : String) : TokenClaims :=
  let token : TokenClaims := { identity := some participant_identity }
  { token with grants := { room_create := true
                           room_list := true
                           room_admin := true } }

/-- A participant permission record as reported by the remote platform. -/
structure LKPermission where
  can_publish : Bool
  can_subscribe : Bool
  can_publish_data : Bool
deriving Repr, DecidableEq

/-- A remote participant as reported by `list_participants`. -/
structure LKParticipant where
  identity : String
  name : String
  metadata : String
  tracks : List String
  permission : LKPermission
deriving Repr, DecidableEq

/-- The dictionary built by a successful `get_room_info`: the remote room
name and the participant list. -/
structure RoomInfoData where
  room : String
  participants : List LKParticipant
deriving Repr, DecidableEq

/-- A room record returned by the remote `create_room` call. -/
structure LKRoom where
  name : String
  max_participants : Nat
deriving Repr, DecidableEq

/-- `LiveKitService.get_room_info` (livekit_service.py lines 78 to 106):
the whole body is wrapped in `try/except`, returning the room-and-
participants dictionary on success and `None` on any exception. -/
def get_room_info (_svc : LiveKitService)
    (remote : Except String RoomInfoData) : Option RoomInfoData :=
  match remote with
  | .ok info => some info
  | .error _ => none

/-- `LiveKitService.create_room` (livekit_service.py lines 108 to 134):
returns the created room on success and `None` on any exception. -/
def create_room (_svc : LiveKitService)
    (remote : Except String LKRoom) : Option LKRoom :=
  match remote with
  | .ok room => some room
  | .error _ => none

/-- `LiveKitService.delete_room` (livekit_service.py lines 136 to 157):
returns `True` on success and `False` on any exception. -/
def delete_room (_svc : LiveKitService)
    (remote : Except String Unit) : Bool :=
  match remote with
  | .ok _ => true
  | .error _ => false

end LiveKitService

/-- Participant entry of a room-details response (schemas.py,
RoomParticipant). -/
structure RoomParticipant where
  identity : String
  name : String
  metadata : String
  num_tracks : Nat
  permission : LiveKitService.LKPermission
deriving Repr, DecidableEq

/-- Response of GET /rooms/{id} (schemas.py, RoomWithParticipants),
without the unmodelled `created_at` timestamp. -/
structure RoomWithParticipants where
  id : Nat
  name : String
  display_name : String
  description : Option String
  creator_id : Nat
  is_active : Bool
  max_participants : Nat
  participant_count : Nat
  participants : List RoomParticipant
deriving Repr, DecidableEq

/-- Response of POST /rooms/{id}/join (schemas.py, TokenResponse); the
`token` field is the claims set signed into the JWT. -/
structure TokenResponse where
  token : TokenClaims
  room_name : String
  participant_identity : String
  livekit_url : String
deriving Repr, DecidableEq

/-- Modelled from the spec: `auth.py` (the Password Hasher of section 2)
is not under src/. A one-way salted hash is a pure function of the
password; the tag keeps the model injective and executable. -/
def get_password_hash (password : String) : String :=
  "bcrypt$" ++ password

/-- Fresh autoincrement primary key: one more than the largest id in use. -/
def freshId (ids : List Nat) : Nat :=
  ids.foldr (fun a b => max a b) 0 + 1

namespace Main

/-- POST /auth/register (main.py lines 57 to 89): reject when a user with
the same email or username exists, otherwise insert the new row. The
returned `User` is the row the endpoint echoes back as UserResponse. -/
def register_user (user : UserCreate) (db : DB) :
    Except HTTPError (DB × User) :=
  match db.users.find? (fun u => u.email == user.email || u.username == user.username) with
  | some _ =>
    .error ⟨400, ("User with this email or username already exists")⟩
  | none =>
    let db_user : User :=
      { id := freshId (db.users.map User.id)
        username := user.username
        email := user.email
        hashed_password := get_password_hash user.password
        is_active := true }
    .ok ({ db with users := db.users ++ [db_user] }, db_user)

/-- POST /rooms (main.py lines 120 to 161): reject a duplicate name
(no `is_active` filter), otherwise insert the local row, commit, and
only then attempt the remote `create_room`, whose outcome `remote` is
discarded. -/
def create_room (room : RoomCreate) (current_user : User)
    (svc : LiveKitService) (remote : Except String LiveKitService.LKRoom)
    (db : DB) : Except HTTPError (DB × Room) :=
  match db.rooms.find? (fun r => r.name == room.name) with
  | some _ =>
    .error ⟨400, ("Room with this name already exists")⟩
  | none =>
    let db_room : Room :=
      { id := freshId (db.rooms.map Room.id)
        name := room.name
        display_name := room.display_name
        description := room.description
        creator_id := current_user.id
        is_active := true
        max_participants := room.max_participants }
    let db2 : DB := { db with rooms := db.rooms ++ [db_room] }
    let _lk := LiveKitService.create_room svc remote
    .ok (db2, db_room)

/-- GET /rooms/{id} (main.py lines 193 to 236): 404 when no row has the
id; otherwise the participant list comes from the gateway and stays
empty when `get_room_info` yields `None`. -/
def get_room_details (room_id : Nat) (svc : LiveKitService)
    (remote : Except String LiveKitService.RoomInfoData) (db : DB) :
    Except HTTPError RoomWithParticipants :=
  match db.rooms.find? (fun r => r.id == room_id) with
  | none => .error ⟨404, ("Room not found")⟩
  | some room =>
    let room_info := LiveKitService.get_room_info svc remote
    let participants : List RoomParticipant :=
      match room_info with
      | none => []
      | some info =>
        info.participants.map (fun p =>
          { identity := p.identity
            name := p.name
            metadata := p.metadata
            num_tracks := p.tracks.length
            permission := { can_publish := p.permission.can_publish
                            can_subscribe := p.permission.can_subscribe
                            can_publish_data := p.permission.can_publish_data } })
    .ok { id := room.id
          name := room.name
          display_name := room.display_name
          description := room.description
          creator_id := room.creator_id
          is_active := room.is_active
          max_participants := room.max_participants
          participant_count := participants.length
          participants := participants }

/-- The membership filter of main.py lines 253 to 257: the active row of
this user in this room. -/
def activeMembershipPred (user_id room_id : Nat) (m : RoomMembership) : Bool :=
  m.user_id == user_id && m.room_id == room_id && m.is_active

/-- POST /rooms/{id}/join (main.py lines 238 to 281): 404 when no row has
the id (the lookup does not test `Room.is_active`); insert a membership
only when no active row exists for the pair; always mint a token. -/
def join_room (room_id : Nat) (current_user : User) (svc : LiveKitService)
    (db : DB) : Except HTTPError (DB × TokenResponse) :=
  match db.rooms.find? (fun r => r.id == room_id) with
  | none => .error ⟨404, ("Room not found")⟩
  | some room =>
    let existing_membership :=
      db.memberships.find? (activeMembershipPred current_user.id room_id)
    let db2 : DB :=
      match existing_membership with
      | some _ => db
      | none =>
        { db with memberships :=
            db.memberships ++
              [{ id := freshId (db.memberships.map RoomMembership.id)
                 user_id := current_user.id
                 room_id := room_id
                 is_active := true }] }
    let token := LiveKitService.create_access_token svc room.name
      (toString current_user.id) (some current_user.username)
      (some (("user_id:") ++ toString current_user.id))
    .ok (db2, { token := token
                room_name := room.name
                participant_identity := toString current_user.id
                livekit_url := svc.livekit_url })

/-- The mutation `room.is_active = False` through the object returned by
`.first()`: deactivate the first row carrying the id. -/
def setRoomInactiveFirst : List Room → Nat → List Room
  | [], _ => []
  | r :: rs, room_id =>
    if r.id == room_id then { r with is_active := false } :: rs
    else r :: setRoomInactiveFirst rs room_id

/-- The loop of main.py lines 327 to 329 over `.all()`: deactivate every
membership row of the room. -/
def deactivateMembership (room_id : Nat) (m : RoomMembership) : RoomMembership :=
  if m.room_id == room_id then { m with is_active := false } else m

/-- DELETE /rooms/{id} (main.py lines 303 to 336): 404 when no row has
the id, 403 when the requester is not the creator; otherwise soft-delete
the room, deactivate all its memberships, commit, then attempt the
remote delete, whose outcome `remote` is discarded. -/
def delete_room (room_id : Nat) (current_user : User) (svc : LiveKitService)
    (remote : Except String Unit) (db : DB) : Except HTTPError DB :=
  match db.rooms.find? (fun r => r.id == room_id) with
  | none => .error ⟨404, ("Room not found")⟩
  | some room =>
    if room.creator_id != current_user.id then
      .error ⟨403, ("Only room creator can delete the room")⟩
    else
      let db2 : DB :=
        { db with
            rooms := setRoomInactiveFirst db.rooms room_id
            memberships := db.memberships.map (deactivateMembership room_id) }
      let _lk := LiveKitService.delete_room svc remote
      .ok db2

end Main

/-- The database state visible after an endpoint call: the new state on
success, the caller-supplied state when an HTTPException was raised. -/
def dbAfter (db : DB) : Except HTTPError DB → DB
  | .ok db2 => db2
  | .error _ => db

/-- As `dbAfter`, for endpoints that pair the state with a response. -/
def dbAfterPair {α : Type} (db : DB) : Except HTTPError (DB × α) → DB
  | .ok p => p.1
  | .error _ => db

/-- Whether an endpoint call produced a success response. -/
def isOkExcept {ε α : Type} : Except ε α → Bool
  | .ok _ => true
  | .error _ => false

/-- Number of active membership rows of one room, as counted by the
GET /rooms listing (main.py lines 174 to 177). -/
def roomActiveCount (db : DB) (room_id : Nat) : Nat :=
  (db.memberships.filter (fun m => m.room_id == room_id && m.is_active)).length

/-- Number of active membership rows of one (user, room) pair; the
concurrency-sensitive invariant bounds it by one. -/
def pairActiveCount (db : DB) (user_id room_id : Nat) : Nat :=
  (db.memberships.filter (Main.activeMembershipPred user_id room_id)).length

/-- A configured service instance used by concrete witnesses. -/
def exSvc : LiveKitService :=
  { api_key := "devkey", api_secret := "devsecret", livekit_url := "wss://lk.example.org" }

/-- Registered user alice, id 1. -/
def exUserA : User :=
  { id := 1, username := "alice", email := "alice@example.org"
    hashed_password := get_password_hash "pw1", is_active := true }

/-- Registered user bob, id 2. -/
def exUserB : User :=
  { id := 2, username := "bob", email := "bob@example.org"
    hashed_password := get_password_hash "pw2", is_active := true }

/-- Registered user carol, id 3. -/
def exUserC : User :=
  { id := 3, username := "carol", email := "carol@example.org"
    hashed_password := get_password_hash "pw3", is_active := true }

/-- Room `standup`, id 1, created by alice. -/
def exRoom1 : Room :=
  { id := 1, name := "standup", display_name := "Standup", description := none
    creator_id := 1, is_active := true, max_participants := 50 }

/-- Room `small`, id 2, created by alice, capacity one. -/
def exRoomSmall : Room :=
  { id := 2, name := "small", display_name := "Small", description := none
    creator_id := 1, is_active := true, max_participants := 1 }

/-- Config absence as the claims use the word: the environment variable
is unset, or set to the empty string (both falsy to the startup check). -/
def absentConfig (x : Option String) : Prop :=
  x = none ∨ x = some ""

/-- C1: for every room name R, identity I, optional display name and
optional metadata (when supplied, non-empty, as Python truthiness reads
them), the claims set signed into the token of `create_access_token`
holds exactly identity I, the supplied name and metadata, and a video
grant with room R, room_join, can_publish, can_subscribe and
can_publish_data set, and no room_create, room_list or room_admin
capability. -/
theorem claim_C1_join_token_claims (svc : LiveKitService) (R I : String)
    (pn md : Option String) (hn : pn ≠ some "") (hm : md ≠ some "") :
    LiveKitService.create_access_token svc R I pn md =
      { identity := some I, name := pn, metadata := md
        grants := { room_join := true, room := some R, can_publish := true
                    can_subscribe := true, can_publish_data := true
                    room_create := false, room_list := false
                    room_admin := false } } := by
  have hgen : ∀ x : Option String, x ≠ some "" → pyTruthy x = true ∨ x = none := by
    intro x hx
    cases x with
    | none => exact Or.inr rfl
    | some s =>
      left
      have hs : s ≠ "" := fun h2 => hx (by rw [h2])
      simp [pyTruthy, hs]
  rcases hgen pn hn with h1 | h1 <;> rcases hgen md hm with h2 | h2 <;>
    simp [LiveKitService.create_access_token, h1, h2]

/-- C1 witness: the theorem applied to the concrete join request of room
standup by user 7. -/
theorem claim_C1_join_token_claims_witness :
    LiveKitService.create_access_token exSvc "standup" "7"
        (some "alice") (some "user_id:7") =
      { identity := some "7", name := some "alice"
        metadata := some "user_id:7"
        grants := { room_join := true, room := some "standup"
                    can_publish := true, can_subscribe := true
                    can_publish_data := true, room_create := false
                    room_list := false, room_admin := false } } :=
  claim_C1_join_token_claims exSvc "standup" "7" (some "alice")
    (some "user_id:7") (by decide) (by decide)

/-- C7: construction of the signer errors exactly when at least one of
the three configuration values is absent (unset or empty); with all
three present it yields the configured state, from which
`create_access_token` is a total function and cannot fail. -/
theorem claim_C7_init_error_iff_absent (k s u : Option String) :
    (∃ e, LiveKitService.init k s u = .error e) ↔
      (absentConfig k ∨ absentConfig s ∨ absentConfig u) := by
  have hiff : ∀ x : Option String, pyTruthy x = false ↔ absentConfig x := by
    intro x
    cases x with
    | none => simp [pyTruthy, absentConfig]
    | some s2 => simp [pyTruthy, absentConfig]
  by_cases h : (pyTruthy k && pyTruthy s && pyTruthy u) = true
  · have hk := (Bool.and_elim_left (Bool.and_elim_left h))
    have hs := (Bool.and_elim_right (Bool.and_elim_left h))
    have hu := Bool.and_elim_right h
    constructor
    · intro he
      rcases he with ⟨e, he⟩
      rw [LiveKitService.init, if_pos h] at he
      exact absurd he (by simp)
    · intro habs
      rcases habs with hx | hx | hx
      · rw [← hiff k] at hx; rw [hk] at hx; exact absurd hx (by simp)
      · rw [← hiff s] at hx; rw [hs] at hx; exact absurd hx (by simp)
      · rw [← hiff u] at hx; rw [hu] at hx; exact absurd hx (by simp)
  · constructor
    · intro _
      have h2 : ¬(pyTruthy k = true ∧ pyTruthy s = true ∧ pyTruthy u = true) := by
        intro hc
        exact h (by simp [hc.1, hc.2.1, hc.2.2])
      cases hk : pyTruthy k with
      | false => exact Or.inl ((hiff k).mp hk)
      | true =>
        cases hs : pyTruthy s with
        | false => exact Or.inr (Or.inl ((hiff s).mp hs))
        | true =>
          cases hu : pyTruthy u with
          | false => exact Or.inr (Or.inr ((hiff u).mp hu))
          | true => exact absurd ⟨hk, hs, hu⟩ h2
    · intro _
      refine ⟨"LiveKit configuration is incomplete. Please check your environment variables.", ?_⟩
      rw [LiveKitService.init, if_neg h]

/-- Deactivating the first matching room commutes with the lookup by id:
the lookup afterwards returns the previously found row, deactivated. -/
theorem find_setRoomInactiveFirst (l : List Room) (rid : Nat) :
    (Main.setRoomInactiveFirst l rid).find? (fun x => x.id == rid) =
      (l.find? (fun x => x.id == rid)).map
        (fun x => { x with is_active := false }) := by
  induction l with
  | nil => rfl
  | cons r rs ih =>
    cases h : (r.id == rid) with
    | true => simp [Main.setRoomInactiveFirst, List.find?, h]
    | false => simp [Main.setRoomInactiveFirst, List.find?, h, ih]

/-- Deactivating the first matching room twice equals doing it once. -/
theorem setRoomInactiveFirst_idem (l : List Room) (rid : Nat) :
    Main.setRoomInactiveFirst (Main.setRoomInactiveFirst l rid) rid =
      Main.setRoomInactiveFirst l rid := by
  induction l with
  | nil => rfl
  | cons r rs ih =>
    cases h : (r.id == rid) with
    | true => simp [Main.setRoomInactiveFirst, h]
    | false => simp [Main.setRoomInactiveFirst, h, ih]

/-- Deactivating the memberships of one room is idempotent pointwise. -/
theorem deactivateMembership_idem (rid : Nat) (m : RoomMembership) :
    Main.deactivateMembership rid (Main.deactivateMembership rid m) =
      Main.deactivateMembership rid m := by
  by_cases h : (m.room_id == rid) = true
  · simp [Main.deactivateMembership, h]
  · simp [Main.deactivateMembership, h]

/-- Deactivating the memberships of one room is idempotent on the table. -/
theorem map_deactivateMembership_idem (rid : Nat) (l : List RoomMembership) :
    (l.map (Main.deactivateMembership rid)).map (Main.deactivateMembership rid) =
      l.map (Main.deactivateMembership rid) := by
  induction l with
  | nil => rfl
  | cons m ms ih => simp [deactivateMembership_idem, ih]

/-- After deactivating the memberships of room `rid`, every membership
row of `rid` is inactive. -/
theorem mem_map_deactivateMembership (rid : Nat) (l : List RoomMembership) :
    ∀ m ∈ l.map (Main.deactivateMembership rid), m.room_id = rid →
      m.is_active = false := by
  intro m hm hrid
  rcases List.mem_map.mp hm with ⟨m0, _, rfl⟩
  by_cases h : (m0.room_id == rid) = true
  · simp [Main.deactivateMembership, h]
  · exfalso
    have heq : Main.deactivateMembership rid m0 = m0 := by
      simp [Main.deactivateMembership, h]
    rw [heq] at hrid
    exact h (by simp [hrid])

/-- Database on which alice deletes her room standup while bob holds an
active membership there. -/
def exDBdel : DB :=
  { users := [exUserA, exUserB]
    rooms := [exRoom1]
    memberships := [{ id := 1, user_id := 2, room_id := 1, is_active := true }] }

/-- C2: when the creator of a found room deletes it, the call succeeds,
the room row is left inactive, every membership row of the room is left
inactive whatever its previous state, and running the deletion again
from the resulting state returns the very same state. -/
theorem claim_C2_delete_room_cascade_idem (db : DB) (rid : Nat) (r : Room)
    (u : User) (svc : LiveKitService) (o1 o2 : Except String Unit)
    (hr : db.rooms.find? (fun x => x.id == rid) = some r)
    (hu : r.creator_id = u.id) :
    ∃ db2, Main.delete_room rid u svc o1 db = .ok db2 ∧
      (db2.rooms.find? (fun x => x.id == rid)).map Room.is_active = some false ∧
      (∀ m ∈ db2.memberships, m.room_id = rid → m.is_active = false) ∧
      Main.delete_room rid u svc o2 db2 = .ok db2 := by
  have hbne : (r.creator_id != u.id) = false := by simp [hu]
  refine ⟨DB.mk db.users (Main.setRoomInactiveFirst db.rooms rid)
    (db.memberships.map (Main.deactivateMembership rid)), ?_, ?_, ?_, ?_⟩
  · simp [Main.delete_room, hr, hbne]
  · show ((Main.setRoomInactiveFirst db.rooms rid).find?
      (fun x => x.id == rid)).map Room.is_active = some false
    rw [find_setRoomInactiveFirst, hr]
    rfl
  · exact mem_map_deactivateMembership rid db.memberships
  · have hfind2 : (Main.setRoomInactiveFirst db.rooms rid).find?
        (fun x => x.id == rid) = some { r with is_active := false } := by
      rw [find_setRoomInactiveFirst, hr]
      rfl
    have hbne2 : (({ r with is_active := false } : Room).creator_id != u.id) = false := by
      simp [hu]
    simp only [Main.delete_room, hfind2, hbne2, Bool.false_eq_true, if_false]
    rw [setRoomInactiveFirst_idem, map_deactivateMembership_idem]

/-- C2 witness: alice deletes standup with bob active inside; the cascade
and its idempotence hold on the concrete database. -/
theorem claim_C2_delete_room_cascade_idem_witness :
    ∃ db2, Main.delete_room 1 exUserA exSvc (Except.ok ()) exDBdel = .ok db2 ∧
      (db2.rooms.find? (fun x => x.id == 1)).map Room.is_active = some false ∧
      (∀ m ∈ db2.memberships, m.room_id = 1 → m.is_active = false) ∧
      Main.delete_room 1 exUserA exSvc (Except.ok ()) db2 = .ok db2 :=
  claim_C2_delete_room_cascade_idem exDBdel 1 exRoom1 exUserA exSvc
    (Except.ok ()) (Except.ok ()) (by rfl) (by rfl)

/-- C5: a deletion request on a found room by a user other than its
creator fails with 403 and the visible database state is exactly the
state before the request. -/
theorem claim_C5_delete_room_not_creator_403 (db : DB) (rid : Nat) (r : Room)
    (requester : User) (svc : LiveKitService) (o : Except String Unit)
    (hr : db.rooms.find? (fun x => x.id == rid) = some r)
    (hB : requester.id ≠ r.creator_id) :
    Main.delete_room rid requester svc o db =
      .error ⟨403, ("Only room creator can delete the room")⟩ ∧
    dbAfter db (Main.delete_room rid requester svc o db) = db := by
  have hbne : (r.creator_id != requester.id) = true :=
    bne_iff_ne.mpr (Ne.symm hB)
  constructor
  · simp [Main.delete_room, hr, hbne]
  · simp [Main.delete_room, hr, hbne, dbAfter]

/-- C5 witness: bob, who did not create standup, fails to delete it and
the database is unchanged. -/
theorem claim_C5_delete_room_not_creator_403_witness :
    Main.delete_room 1 exUserB exSvc (Except.ok ()) exDBdel =
      .error ⟨403, ("Only room creator can delete the room")⟩ ∧
    dbAfter exDBdel (Main.delete_room 1 exUserB exSvc (Except.ok ()) exDBdel) = exDBdel :=
  claim_C5_delete_room_not_creator_403 exDBdel 1 exRoom1 exUserB exSvc
    (Except.ok ()) (by rfl) (by decide)

/-- C3: joining preserves the invariant that the (user, room) pair holds
at most one active membership row: on success the bound still holds, and
when an active row already existed the membership table is unchanged, so
a second join without an intervening leave adds no second active row. -/
theorem claim_C3_join_preserves_single_active (db db2 : DB) (rid : Nat)
    (u : User) (svc : LiveKitService) (resp : TokenResponse)
    (hinv : pairActiveCount db u.id rid ≤ 1)
    (hok : Main.join_room rid u svc db = .ok (db2, resp)) :
    pairActiveCount db2 u.id rid ≤ 1 ∧
    (db.memberships.find? (Main.activeMembershipPred u.id rid) ≠ none →
      db2.memberships = db.memberships) := by
  cases hfr : db.rooms.find? (fun x => x.id == rid) with
  | none => simp [Main.join_room, hfr] at hok
  | some room =>
    cases hm : db.memberships.find? (Main.activeMembershipPred u.id rid) with
    | some m0 =>
      simp only [Main.join_room, hfr, hm] at hok
      have hdb : db = db2 := by
        have := hok
        simp only [Except.ok.injEq, Prod.mk.injEq] at this
        exact this.1
      subst hdb
      exact ⟨hinv, fun _ => rfl⟩
    | none =>
      simp only [Main.join_room, hfr, hm] at hok
      have hdb : db2 = { db with memberships := db.memberships ++
          [{ id := freshId (db.memberships.map RoomMembership.id)
             user_id := u.id, room_id := rid, is_active := true }] } := by
        have := hok
        simp only [Except.ok.injEq, Prod.mk.injEq] at this
        exact this.1.symm
      have hnil : db.memberships.filter (Main.activeMembershipPred u.id rid) = [] := by
        rw [List.filter_eq_nil_iff]
        intro a ha
        have := List.find?_eq_none.mp hm a ha
        simpa using this
      constructor
      · rw [hdb]
        unfold pairActiveCount
        show (List.filter _ (db.memberships ++ _)).length ≤ 1
        rw [List.filter_append, hnil]
        simp [Main.activeMembershipPred]
      · intro hne
        exact absurd rfl hne

/-- Token response minted when bob joins standup. -/
def exJoinResp : TokenResponse :=
  { token := { identity := some "2", name := some "bob"
               metadata := some "user_id:2"
               grants := { room_join := true, room := some "standup"
                           can_publish := true, can_subscribe := true
                           can_publish_data := true, room_create := false
                           room_list := false, room_admin := false } }
    room_name := "standup", participant_identity := "2"
    livekit_url := "wss://lk.example.org" }

/-- C3 witness: bob, already active in standup, joins again; the table is
unchanged and still holds a single active row for the pair. -/
theorem claim_C3_join_preserves_single_active_witness :
    pairActiveCount exDBdel exUserB.id 1 ≤ 1 ∧
    (pairActiveCount exDBdel exUserB.id 1 ≤ 1 ∧
      (exDBdel.memberships.find? (Main.activeMembershipPred exUserB.id 1) ≠ none →
        exDBdel.memberships = exDBdel.memberships)) :=
  ⟨by decide, claim_C3_join_preserves_single_active exDBdel exDBdel 1 exUserB
    exSvc exJoinResp (by decide) (by rfl)⟩

/-- Database holding alice, bob and alice's room standup, before alice
deletes the room. -/
def exDBpre : DB :=
  { users := [exUserA, exUserB], rooms := [exRoom1], memberships := [] }

/-- The state after alice deletes standup: the room row is kept with
`is_active = false`. -/
def exDBdeleted : DB :=
  dbAfter exDBpre (Main.delete_room 1 exUserA exSvc (Except.ok ()) exDBpre)

/-- C4 evaluation: after the creator deletes room 1 the room row is
inactive, yet a later `join_room 1` by bob does not fail with 404: the
lookup in main.py line 245 filters only on the id, never on
`Room.is_active`, so the call succeeds and inserts a fresh active
membership row into the deleted room. -/
theorem claim_C4_join_after_delete_not_404 :
    (exDBdeleted.rooms.find? (fun x => x.id == 1)).map Room.is_active = some false ∧
    isOkExcept (Main.join_room 1 exUserB exSvc exDBdeleted) = true ∧
    pairActiveCount (dbAfterPair exDBdeleted
      (Main.join_room 1 exUserB exSvc exDBdeleted)) exUserB.id 1 = 1 := by
  refine ⟨by rfl, by rfl, by rfl⟩

/-- C8: a registration whose email or username is already taken is
rejected with 400 and the user table, hence the count of accounts
carrying that email or username, is exactly as before the request. -/
theorem claim_C8_register_duplicate_rejected (db : DB) (req : UserCreate)
    (h : ∃ u0 ∈ db.users, u0.email = req.email ∨ u0.username = req.username) :
    Main.register_user req db =
      .error ⟨400, ("User with this email or username already exists")⟩ ∧
    dbAfterPair db (Main.register_user req db) = db := by
  have hfind : (db.users.find?
      (fun u => u.email == req.email || u.username == req.username)).isSome := by
    rw [List.find?_isSome]
    rcases h with ⟨u0, hu0, hcase⟩
    refine ⟨u0, hu0, ?_⟩
    rcases hcase with h1 | h1 <;> simp [h1]
  rcases Option.isSome_iff_exists.mp hfind with ⟨u1, hu1⟩
  constructor
  · simp [Main.register_user, hu1]
  · simp [Main.register_user, hu1, dbAfterPair]

/-- A registration request reusing alice's email. -/
def exDupReq : UserCreate :=
  { username := "alice2", email := "alice@example.org", password := "pw9" }

/-- C8 witness: registering a second account with alice's email is
rejected and alice's account stays the only one. -/
theorem claim_C8_register_duplicate_rejected_witness :
    Main.register_user exDupReq exDBpre =
      .error ⟨400, ("User with this email or username already exists")⟩ ∧
    dbAfterPair exDBpre (Main.register_user exDupReq exDBpre) = exDBpre :=
  claim_C8_register_duplicate_rejected exDBpre exDupReq
    ⟨exUserA, by decide, Or.inl (by decide)⟩

/-- C9: the duplicate-name check of room creation (main.py line 128)
does not filter on `Room.is_active`, so as long as any row, even a
soft-deleted one, carries the requested name, creation fails with 400
and the name of a deleted room can never be reused. -/
theorem claim_C9_deleted_room_name_not_reusable (db : DB) (req : RoomCreate)
    (u : User) (svc : LiveKitService) (o : Except String LiveKitService.LKRoom)
    (h : ∃ r0 ∈ db.rooms, r0.name = req.name ∧ r0.is_active = false) :
    Main.create_room req u svc o db =
      .error ⟨400, ("Room with this name already exists")⟩ := by
  have hfind : (db.rooms.find? (fun r => r.name == req.name)).isSome := by
    rw [List.find?_isSome]
    rcases h with ⟨r0, hr0, hname, _⟩
    exact ⟨r0, hr0, by simp [hname]⟩
  rcases Option.isSome_iff_exists.mp hfind with ⟨r1, hr1⟩
  simp [Main.create_room, hr1]

/-- A room-creation request reusing the name standup. -/
def exDupRoomReq : RoomCreate :=
  { name := "standup", display_name := "Standup2", description := none
    max_participants := 50 }

/-- The soft-deleted standup row as it sits in `exDBdeleted`. -/
def exRoom1Deleted : Room :=
  { exRoom1 with is_active := false }

/-- C9 witness: after standup is soft-deleted, bob cannot create a new
room named standup. -/
theorem claim_C9_deleted_room_name_not_reusable_witness :
    Main.create_room exDupRoomReq exUserB exSvc
      (Except.ok { name := "standup", max_participants := 50 }) exDBdeleted =
      .error ⟨400, ("Room with this name already exists")⟩ :=
  claim_C9_deleted_room_name_not_reusable exDBdeleted exDupRoomReq exUserB exSvc
    (Except.ok { name := "standup", max_participants := 50 })
    ⟨exRoom1Deleted, by decide, by decide, by decide⟩

/-- C10: joining a room found active succeeds whatever the membership
table holds: `join_room` performs no comparison against
`Room.max_participants`, so the bound does not limit the number of
active memberships. -/
theorem claim_C10_join_ignores_capacity (db : DB) (rid : Nat) (r : Room)
    (u : User) (svc : LiveKitService)
    (hr : db.rooms.find? (fun x => x.id == rid) = some r)
    (_hact : r.is_active = true) :
    isOkExcept (Main.join_room rid u svc db) = true := by
  simp only [Main.join_room, hr]
  cases hm : db.memberships.find? (Main.activeMembershipPred u.id rid) <;>
    simp [isOkExcept]

/-- Database whose only room has capacity one yet already holds two
active memberships. -/
def exDBover : DB :=
  { users := [exUserA, exUserB, exUserC]
    rooms := [exRoomSmall]
    memberships := [{ id := 1, user_id := 1, room_id := 2, is_active := true },
      { id := 2, user_id := 2, room_id := 2, is_active := true }] }

/-- C10 witness: room small has capacity one and already two active
members, yet carol's join succeeds, pushing the count to three. -/
theorem claim_C10_join_ignores_capacity_witness :
    exRoomSmall.max_participants < roomActiveCount exDBover 2 ∧
    isOkExcept (Main.join_room 2 exUserC exSvc exDBover) = true :=
  ⟨by decide, claim_C10_join_ignores_capacity exDBover 2 exRoomSmall exUserC
    exSvc (by decide) (by decide)⟩

/-- C6: a failed gateway call is absorbed, never propagated: the three
service methods return none or false on any remote error; a room-details
request whose gateway call failed still answers 200 with an empty
participant list; and the committed local state returned by room
creation and deletion does not depend on the remote outcome, so no local
write is rolled back. -/
theorem claim_C6_upstream_failures_absorbed (svc : LiveKitService)
    (e : String) (db : DB) (rid : Nat) (r : Room) (req : RoomCreate)
    (u : User) (o1 o2 : Except String LiveKitService.LKRoom)
    (p1 p2 : Except String Unit)
    (hr : db.rooms.find? (fun x => x.id == rid) = some r) :
    LiveKitService.get_room_info svc (.error e) = none ∧
    LiveKitService.create_room svc (.error e) = none ∧
    LiveKitService.delete_room svc (.error e) = false ∧
    Main.get_room_details rid svc (.error e) db =
      .ok { id := r.id, name := r.name, display_name := r.display_name
            description := r.description, creator_id := r.creator_id
            is_active := r.is_active, max_participants := r.max_participants
            participant_count := 0, participants := [] } ∧
    Main.create_room req u svc o1 db = Main.create_room req u svc o2 db ∧
    Main.delete_room rid u svc p1 db = Main.delete_room rid u svc p2 db := by
  refine ⟨rfl, rfl, rfl, ?_, ?_, ?_⟩
  · simp [Main.get_room_details, hr, LiveKitService.get_room_info]
  · rfl
  · rfl

/-- C6 witness: with standup in the table, a failed gateway call is
absorbed on the concrete database. -/
theorem claim_C6_upstream_failures_absorbed_witness :
    LiveKitService.get_room_info exSvc (.error "boom") = none ∧
    LiveKitService.create_room exSvc (.error "boom") = none ∧
    LiveKitService.delete_room exSvc (.error "boom") = false ∧
    Main.get_room_details 1 exSvc (.error "boom") exDBpre =
      .ok { id := exRoom1.id, name := exRoom1.name
            display_name := exRoom1.display_name
            description := exRoom1.description
            creator_id := exRoom1.creator_id
            is_active := exRoom1.is_active
            max_participants := exRoom1.max_participants
            participant_count := 0, participants := [] } ∧
    Main.create_room exDupRoomReq exUserB exSvc
        (Except.ok { name := "standup", max_participants := 50 }) exDBpre =
      Main.create_room exDupRoomReq exUserB exSvc (Except.error "down") exDBpre ∧
    Main.delete_room 1 exUserB exSvc (Except.ok ()) exDBpre =
      Main.delete_room 1 exUserB exSvc (Except.error "down") exDBpre :=
  claim_C6_upstream_failures_absorbed exSvc "boom" exDBpre 1 exRoom1
    exDupRoomReq exUserB (Except.ok { name := "standup", max_participants := 50 })
    (Except.error "down") (Except.ok ()) (Except.error "down") (by decide)
